import Mathlib

/-!
Verification of the graph session store of the `warnet` frontend
(`NodeGraphFlowProvider` and `useNodeFlowContext`).

The store is a React context provider holding graph-editor state: the node
and edge collections, two boolean UI flags, the selected persona, and a
pending edit buffer.  Each mutation callback is embedded below as an
explicit state-transition function on a `State` record.  JavaScript
identifier values (strings or numbers) are modelled by the sum type
`NodeId`, with the semantics of `===` and of `+ 1` (numeric addition on
numbers, string concatenation on strings) made explicit.  An operation
whose JavaScript original can throw a `TypeError` is embedded as a
function into `Option State`: `none` models the thrown exception, which
aborts the event handler before any state setter runs, leaving the React
store unchanged.
-/

namespace NodeFlow

/-- A JavaScript identifier value: the code mixes string ids (the declared
type of the rendering library) and numeric ids (the values actually
produced by `createNewNode` on numeric input). -/
inductive NodeId where
  | str (s : String)
  | num (n : Int)
deriving DecidableEq

/-- JavaScript `+ 1` on an identifier value: numeric addition on a number,
string concatenation (appending the character "1") on a string. -/
def jsAddOne : NodeId → NodeId
  | .num n => .num (n + 1)
  | .str s => .str (s ++ "1")

/-- A node position, `{x, y}`.  Rationals model the exact result of the
JavaScript divisions `CANVAS_WIDTH / 2` and `CANVAS_HEIGHT / 2`. -/
structure Position where
  x : ℚ
  y : ℚ
deriving DecidableEq

/-- The `data` payload of a node: its display label and free-form name. -/
structure NodeData where
  label : String
  name : String
deriving DecidableEq

/-- A graph node (`Node<Partial<GraphNode>>`): identifier, optional data
payload (the code guards reads with `node.data?.`), optional variant tag,
and a position. -/
structure Node where
  id : NodeId
  data : Option NodeData
  type : Option String
  position : Position
deriving DecidableEq

/-- A graph edge (`Edge<Partial<GraphEdge>>`): identifier, source and
target node identifiers, plus any further edge metadata, modelled as an
association list so that `saveEditedNode`'s stripping of extra fields is
observable. -/
structure Edge where
  id : NodeId
  source : NodeId
  target : NodeId
  extra : List (String × String) := []
deriving DecidableEq

/-- A persona: a named preset bundle of initial nodes and edges. -/
structure NodePersona where
  nodes : List Node
  edges : List Edge
deriving DecidableEq

/-- The argument of `setNodePersonaFunc`: a persona type tag together with
the persona itself. -/
structure NetworkTopology where
  type : String
  nodePersona : NodePersona
deriving DecidableEq

/-- The full store state held by `NodeGraphFlowProvider`: the `useState`
cells `isDialogOpen`, `showGraph`, `nodes`, `edges`, `nodePersonaType`,
`nodePersona`, and the pending edit buffer `nodeInfo`. -/
structure State where
  isDialogOpen : Bool
  showGraph : Bool
  nodes : List Node
  edges : List Edge
  nodePersonaType : Option String
  nodePersona : Option NodePersona
  nodeInfo : Option Node
deriving DecidableEq

/-- `openDialog`: sets the dialog flag. -/
def openDialog (s : State) : State :=
  { s with isDialogOpen := true }

/-- `closeDialog`: clears the dialog flag and the pending edit buffer. -/
def closeDialog (s : State) : State :=
  { s with isDialogOpen := false, nodeInfo := none }

/-- `setNodeEdges`: wholesale replacement of the edge collection (the
spread `[...edge]` is a copy; with value semantics it is the identity). -/
def setNodeEdges (edge : List Edge) (s : State) : State :=
  { s with edges := edge }

/-- `setNodePersonaFunc({type, nodePersona})`: records the persona type and
persona, then replaces the node and edge collections with the persona's. -/
def setNodePersonaFunc (t : NetworkTopology) (s : State) : State :=
  setNodeEdges t.nodePersona.edges
    { s with nodePersonaType := some t.type
           , nodePersona := some t.nodePersona
           , nodes := t.nodePersona.nodes }

/-- `showGraphFunc`: sets the graph-visibility flag. -/
def showGraphFunc (s : State) : State :=
  { s with showGraph := true }

/-- `node.data?.label`: the optional-chained read of a node's label. -/
def jsLabelOf (n : Node) : Option String :=
  n.data.map (fun d => d.label)

/-- Whether the character list `pat` occurs contiguously at the front of
`l` (the head comparison of a JavaScript `includes` scan). -/
def charsAtFront : List Char → List Char → Bool
  | [], _ => true
  | _ :: _, [] => false
  | a :: as, b :: bs => a = b && charsAtFront as bs
-- first argument above is the pattern, second the text

/-- Whether `pat` occurs contiguously somewhere in `l`. -/
def charsSomewhere : List Char → List Char → Bool
  | l, pat =>
    match l with
    | [] => pat.isEmpty
    | a :: as => charsAtFront pat (a :: as) || charsSomewhere as pat

/-- JavaScript `s.includes(pat)`: substring containment. -/
def strIncludes (s pat : String) : Bool :=
  charsSomewhere s.toList pat.toList

/-- The fixed marker string counted by `createNewNode`. -/
def newNodeMarker : String := "new node"

/-- The base of the synthesized label, `"new node "` (note the trailing
space before the count is appended). -/
def newNodeLabelBase : String := "new node "

/-- The variant tag given to synthesized nodes. -/
def draggableTag : String := "draggable"

/-- The boolean filter used by `createNewNode`:
`node.data?.label.includes("new node")` — a node with no `data` yields
`undefined`, which is falsy. -/
def hasNewNodeLabel (node : Node) : Bool :=
  match jsLabelOf node with
  | some l => strIncludes l newNodeMarker
  | none => false

/-- `createNewNode`, parameterized by the canvas sizing constants `cw`
(`CANVAS_WIDTH`) and `ch` (`CANVAS_HEIGHT`) imported from a config module
outside the reviewed source.  Counts the existing nodes whose label
contains the marker, derives the identifier as `last.id + 1` under
JavaScript `+` semantics, and places the node at the canvas center.  On an
empty collection `nodes[nodes.length - 1]` is `undefined` and reading its
`id` throws a `TypeError`, modelled as `none`. -/
def createNewNode (cw ch : ℚ) (nodes : List Node) : Option Node :=
  let newNodesNumber := (nodes.filter hasNewNodeLabel).length
  match nodes.getLast? with
  | none => none
  | some last =>
      some { id := jsAddOne last.id
           , data := some { label := newNodeLabelBase ++ toString newNodesNumber
                          , name := newNodeLabelBase ++ toString newNodesNumber }
           , type := some draggableTag
           , position := { x := cw / 2, y := ch / 2 } }

/-- `addNode(node?)`: appends the supplied node (a node object is always
truthy) or, with no argument, the synthesized default; sets the edit
buffer to the new node and opens the dialog.  `none` models the
`TypeError` thrown by `createNewNode` propagating out of the handler. -/
def addNode (cw ch : ℚ) (node : Option Node) (s : State) : Option State :=
  let newNode := match node with
    | some n => some n
    | none => createNewNode cw ch s.nodes
  newNode.map (fun nn =>
    { s with nodes := s.nodes ++ [nn], nodeInfo := some nn, isDialogOpen := true })

/-- `editNode(node)`: sets the edit buffer to the given node and opens the
dialog, without touching the collections. -/
def editNode (node : Node) (s : State) : State :=
  openDialog { s with nodeInfo := some node }

/-- The template literal `` `${node?.data?.label} duplicate` `` without its
suffix: a missing label interpolates as the string "undefined". -/
def jsTemplateLabel (node : Node) : String :=
  match jsLabelOf node with
  | some l => l
  | none => "undefined"

/-- The suffix appended by `duplicateNode` (with its leading space). -/
def duplicateSuffix : String := " duplicate"

/-- `duplicateNode(node)`: spreads the node, overrides its id with the
string of the current collection length and its data with a payload whose
label AND name are both derived from the original LABEL, then delegates to
`addNode`. -/
def duplicateNode (cw ch : ℚ) (node : Node) (s : State) : Option State :=
  let length := s.nodes.length
  let dup : Node :=
    { node with id := .str (toString length)
              , data := some { label := jsTemplateLabel node ++ duplicateSuffix
                             , name := jsTemplateLabel node ++ duplicateSuffix } }
  addNode cw ch (some dup) s

/-- The node properties writable through `updateNodeInfo` (the code indexes
`data` with an arbitrary key; the payload fields are label and name). -/
inductive NodeProp where
  | label
  | name
deriving DecidableEq

/-- Assignment `d[p] = v` on a data payload. -/
def setDataProp (d : NodeData) : NodeProp → String → NodeData
  | .label, v => { d with label := v }
  | .name, v => { d with name := v }

/-- `updateNodeInfo(property, value)`: returns silently when no edit is in
flight; otherwise writes the property on (a copy of) the buffer.  When the
buffer has no `data` object the assignment throws a `TypeError` (`none`).
The JavaScript spread is shallow, so the original also shares the mutated
`data` object; the value-semantics model keeps the buffer update only,
which is the part the claims observe. -/
def updateNodeInfo (p : NodeProp) (v : String) (s : State) : Option State :=
  match s.nodeInfo with
  | none => some s
  | some info =>
      match info.data with
      | none => none
      | some d =>
          some { s with nodeInfo := some { info with data := some (setDataProp d p v) } }

/-- The map body in `saveEditedNode`: keep only `id`, `source`, `target`. -/
def stripEdge (e : Edge) : Edge :=
  { id := e.id, source := e.source, target := e.target, extra := [] }

/-- JavaScript `Array.prototype.findIndex`: the index of the first element
satisfying the predicate, `-1` when there is none. -/
def jsFindIndex {α : Type} (p : α → Bool) : List α → Int
  | [] => -1
  | a :: as =>
      if p a then 0
      else
        let r := jsFindIndex p as
        if r = -1 then -1 else r + 1

/-- `saveEditedNode`: returns silently with no edit buffer; otherwise looks
up the first node whose id `===` the buffer's id; when found, writes the
buffer over that position, replaces every edge by its stripped copy, and
closes the dialog (which also clears the buffer); when not found, does
nothing. -/
def saveEditedNode (s : State) : State :=
  match s.nodeInfo with
  | none => s
  | some info =>
      let nodeIndex := jsFindIndex (fun node => decide (node.id = info.id)) s.nodes
      if nodeIndex ≠ -1 then
        closeDialog
          { s with nodes := s.nodes.set nodeIndex.toNat info
                 , edges := s.edges.map stripEdge }
      else s

/-- `deleteNode(node)`: keeps exactly the nodes whose id `!==` the
argument's id and the edges touching the argument's id at neither end. -/
def deleteNode (node : Node) (s : State) : State :=
  { s with nodes := s.nodes.filter (fun m => decide (m.id ≠ node.id))
         , edges := s.edges.filter (fun e => decide (¬ (e.source = node.id ∨ e.target = node.id))) }

/-- A value held by the React context cell: `undefined` outside any
`useContext` resolution failure, `null` (the default installed by
`createContext<NodeGraphContext>(null!)`), or a provider-supplied store. -/
inductive ContextValue where
  | undefinedV
  | nullV
  | provided (s : State)
deriving DecidableEq

/-- The string thrown by the hook's guard. -/
def providerErrorMsg : String :=
  "useNodeGraphContext must be used within a NodeGraphProvider"

/-- The default value of `nodeFlowContext`: `createContext(null!)` installs
`null`, which is what `useContext` returns outside a provider subtree. -/
def nodeFlowContextDefault : ContextValue := ContextValue.nullV

/-- `useNodeFlowContext`: reads the context and throws only when the value
`=== undefined`; any other value — including the `null` default — is
returned to the caller. -/
def useNodeFlowContext (v : ContextValue) : Except String ContextValue :=
  match v with
  | .undefinedV => Except.error providerErrorMsg
  | v => Except.ok v

/-- One step of a user-driven `addNode`/`deleteNode` interaction sequence. -/
inductive Step where
  | add (node : Option Node)
  | del (node : Node)

/-- Executes one step.  A thrown `TypeError` (the `none` result of
`addNode`) aborts the handler with the store's `useState` cells untouched,
so the state passes through unchanged. -/
def applyStep (cw ch : ℚ) : Step → State → State
  | .add node, s => (addNode cw ch node s).getD s
  | .del node, s => deleteNode node s

/-- Executes a sequence of `addNode`/`deleteNode` steps. -/
def run (cw ch : ℚ) : List Step → State → State
  | [], s => s
  | st :: sts, s => run cw ch sts (applyStep cw ch st s)

/-- Referential integrity: every edge's source and target are identifiers
of nodes present in the node collection. -/
def EdgesConsistent (s : State) : Prop :=
  ∀ e ∈ s.edges,
    (∃ m ∈ s.nodes, m.id = e.source) ∧ (∃ m ∈ s.nodes, m.id = e.target)

instance edgesConsistentDecidable (s : State) : Decidable (EdgesConsistent s) :=
  inferInstanceAs (Decidable (∀ e ∈ s.edges,
    (∃ m ∈ s.nodes, m.id = e.source) ∧ (∃ m ∈ s.nodes, m.id = e.target)))

/-- The numeric value of a decimal digit character, `none` otherwise. -/
def charDigit (c : Char) : Option Nat :=
  let n := c.toNat
  if 48 ≤ n ∧ n ≤ 57 then some (n - 48) else none

/-- Parses a non-empty run of decimal digits. -/
def parseNatAux : List Char → Nat → Option Nat
  | [], acc => some acc
  | c :: cs, acc =>
      match charDigit c with
      | some d => parseNatAux cs (acc * 10 + d)
      | none => none

/-- Parses a decimal numeral string, `none` on anything else. -/
def parseNatStr (s : String) : Option Nat :=
  match s.toList with
  | [] => none
  | c :: cs => parseNatAux (c :: cs) 0

/-- Modelled from the spec: the claimed identifier derivation of
`createDefaultNode` — the last node's identifier "coerced to a number then
back to the generic identifier type" and incremented.  A numeric
identifier increments; a string identifier is parsed as a decimal number
(`none` when it does not parse) and rendered back to a string. -/
def specCoercedIncrement : NodeId → Option NodeId
  | .num n => some (.num (n + 1))
  | .str s => (parseNatStr s).map (fun k => .str (toString (k + 1)))

/-! ### Concrete fixtures used by scenario conjuncts and witnesses -/

/-- The origin position, used where a scenario leaves positions
unspecified. -/
def posZero : Position := { x := 0, y := 0 }

/-- The bare node `{id:"a"}` of the delete scenario. -/
def nodeA : Node := { id := .str ("a"), data := none, type := none, position := posZero }

/-- The bare node `{id:"b"}` of the delete scenario. -/
def nodeB : Node := { id := .str ("b"), data := none, type := none, position := posZero }

/-- The edge `{id:"e1",source:"a",target:"b"}` of the delete scenario. -/
def edgeE1 : Edge := { id := .str ("e1"), source := .str ("a"), target := .str ("b") }

/-- The delete scenario's starting state: nodes `[{id:"a"},{id:"b"}]`,
edges `[{id:"e1",source:"a",target:"b"}]`. -/
def scenarioDeleteState : State :=
  { isDialogOpen := false, showGraph := false
  , nodes := [nodeA, nodeB], edges := [edgeE1]
  , nodePersonaType := none, nodePersona := none, nodeInfo := none }

/-- A node with numeric identifier `1`, as in the add scenario. -/
def nodeOne : Node :=
  { id := .num 1, data := some { label := "node 1", name := "node 1" }
  , type := none, position := posZero }

/-- The add scenario's starting state: one node, no edges. -/
def scenarioAddState : State :=
  { isDialogOpen := false, showGraph := false
  , nodes := [nodeOne], edges := []
  , nodePersonaType := none, nodePersona := none, nodeInfo := none }

/-- A self-loop edge on the numeric identifier `1`. -/
def selfLoopEdge : Edge := { id := .str ("e11"), source := .num 1, target := .num 1 }

/-- A consistent starting state for the invariant witness: one node with a
self-loop edge. -/
def stateOneLoop : State :=
  { isDialogOpen := false, showGraph := false
  , nodes := [nodeOne], edges := [selfLoopEdge]
  , nodePersonaType := none, nodePersona := none, nodeInfo := none }

/-- The state with empty collections (all flags down, nothing selected). -/
def emptyState : State :=
  { isDialogOpen := false, showGraph := false
  , nodes := [], edges := []
  , nodePersonaType := none, nodePersona := none, nodeInfo := none }

/-- An edited copy of `{id:"b"}`, used as a pending edit buffer. -/
def infoX : Node :=
  { id := .str ("b"), data := some { label := "edited", name := "edited" }
  , type := none, position := posZero }

/-- The scenario edge carrying extra metadata that a save must strip. -/
def edgeExtra : Edge :=
  { id := .str ("e1"), source := .str ("a"), target := .str ("b")
  , extra := [("animated", "true")] }

/-- A state mid-edit: dialog open, buffer holding an edited copy of node
`b`, one edge with extra metadata. -/
def editingState : State :=
  { isDialogOpen := true, showGraph := false
  , nodes := [nodeA, nodeB], edges := [edgeExtra]
  , nodePersonaType := none, nodePersona := none, nodeInfo := some infoX }

/-- A buffer whose identifier matches no node of the collections below. -/
def bufferNoMatch : Node :=
  { id := .str ("zz"), data := none, type := none, position := posZero }

/-- A state with an edit in flight whose buffer matches no present node. -/
def inFlightState : State :=
  { isDialogOpen := true, showGraph := false
  , nodes := [nodeA, nodeB], edges := [edgeE1]
  , nodePersonaType := none, nodePersona := none, nodeInfo := some bufferNoMatch }

/-- A sample value written through `updateNodeInfo` in witnesses. -/
def editValue : String := "v"

/-- The bare node `{id:"c"}`. -/
def nodeC : Node := { id := .str ("c"), data := none, type := none, position := posZero }

/-- An edge from `b` to `c`, untouched by deleting `a`. -/
def edgeBC : Edge := { id := .str ("e2"), source := .str ("b"), target := .str ("c") }

/-- Three nodes and the edge `b → c`. -/
def threeNodeState : State :=
  { isDialogOpen := false, showGraph := false
  , nodes := [nodeA, nodeB, nodeC], edges := [edgeBC]
  , nodePersonaType := none, nodePersona := none, nodeInfo := none }

/-- A node whose identifier is the STRING "5". -/
def nodeStrFive : Node :=
  { id := .str ("5"), data := some { label := "x", name := "x" }
  , type := none, position := posZero }

/-- The node `createNewNode` synthesizes from `scenarioAddState` with an
800 × 600 canvas: numeric id 2, label count 0, centered position
(400, 300). -/
def synthesizedNode : Node :=
  { id := .num 2, data := some { label := "new node 0", name := "new node 0" }
  , type := some draggableTag, position := { x := 800 / 2, y := 600 / 2 } }

/-- A node whose label is "L" and whose name is "N". -/
def nodeLN : Node :=
  { id := .str ("n0"), data := some { label := "L", name := "N" }
  , type := none, position := posZero }

/-- A second, distinct node sharing identifier "a" with `nodeA`. -/
def nodeADup : Node :=
  { id := .str ("a"), data := some { label := "second a", name := "second a" }
  , type := none, position := posZero }

/-- A state whose collection carries two distinct nodes with id "a". -/
def dupIdState : State :=
  { isDialogOpen := false, showGraph := false
  , nodes := [nodeA, nodeB, nodeADup], edges := []
  , nodePersonaType := none, nodePersona := none, nodeInfo := none }

/-! ### Helper lemmas -/

/-- `findIndex` returns `-1` when no element satisfies the predicate. -/
theorem jsFindIndex_eq_neg_one {α : Type} (p : α → Bool) (l : List α)
    (h : ∀ a ∈ l, p a = false) : jsFindIndex p l = -1 := by
  induction l with
  | nil => rfl
  | cons a as ih =>
      have ha : p a = false := h a (List.mem_cons_self a as)
      have has : jsFindIndex p as = -1 :=
        ih (fun b hb => h b (List.mem_cons_of_mem a hb))
      simp [jsFindIndex, ha, has]

/-- `findIndex` returns the index of the first element satisfying the
predicate when one exists. -/
theorem jsFindIndex_found {α : Type} (p : α → Bool) (l : List α)
    (h : ∃ a ∈ l, p a = true) :
    ∃ i : Nat, jsFindIndex p l = (i : Int) ∧
      ∃ hi : i < l.length, p (l.get ⟨i, hi⟩) = true ∧
        ∀ j, j < i → ∀ hj : j < l.length, p (l.get ⟨j, hj⟩) = false := by
  induction l with
  | nil => simp at h
  | cons a as ih =>
      by_cases hp : p a = true
      · refine ⟨0, by simp [jsFindIndex, hp], ⟨by simp, hp, ?_⟩⟩
        intro j hj
        exact absurd hj (Nat.not_lt_zero j)
      · have hp' : p a = false := by
          simpa using hp
        have h' : ∃ b ∈ as, p b = true := by
          obtain ⟨b, hb, hpb⟩ := h
          rcases List.mem_cons.mp hb with hb | hb
          · exact absurd (hb ▸ hpb) hp
          · exact ⟨b, hb, hpb⟩
        obtain ⟨i, heq, hi, hget, hfirst⟩ := ih h'
        have hne : ¬ ((i : Int) = -1) := by omega
        refine ⟨i + 1, ?_, ⟨?_, ?_, ?_⟩⟩
        · simp only [jsFindIndex, hp', if_false, heq, hne]
          push_cast
          omega
        · simpa using Nat.succ_lt_succ hi
        · exact hget
        · intro j hj hjlen
          cases j with
          | zero => exact hp'
          | succ k => exact hfirst k (by omega) (by simpa using Nat.lt_of_succ_lt_succ hjlen)

/-- `addNode` preserves referential integrity (a thrown default-synthesis
error leaves the state unchanged). -/
theorem addNode_getD_edgesConsistent (cw ch : ℚ) (node : Option Node) (s : State)
    (h : EdgesConsistent s) : EdgesConsistent ((addNode cw ch node s).getD s) := by
  have happend : ∀ nn : Node,
      EdgesConsistent { s with nodes := s.nodes ++ [nn], nodeInfo := some nn, isDialogOpen := true } := by
    intro nn e he
    obtain ⟨⟨m1, hm1, hid1⟩, ⟨m2, hm2, hid2⟩⟩ := h e he
    exact ⟨⟨m1, List.mem_append.mpr (Or.inl hm1), hid1⟩,
           ⟨m2, List.mem_append.mpr (Or.inl hm2), hid2⟩⟩
  cases node with
  | some n => exact happend n
  | none =>
      cases hc : createNewNode cw ch s.nodes with
      | none => simpa [addNode, hc] using h
      | some nn => simpa [addNode, hc] using happend nn

/-- `deleteNode` preserves referential integrity: every surviving edge's
endpoints differ from the deleted identifier, so their nodes survive the
filter as well. -/
theorem deleteNode_edgesConsistent (node : Node) (s : State)
    (h : EdgesConsistent s) : EdgesConsistent (deleteNode node s) := by
  intro e he
  simp only [deleteNode, List.mem_filter, decide_eq_true_eq] at he
  obtain ⟨hmem, hcond⟩ := he
  have hsrc : e.source ≠ node.id := fun hq => hcond (Or.inl hq)
  have htgt : e.target ≠ node.id := fun hq => hcond (Or.inr hq)
  obtain ⟨⟨m1, hm1, hid1⟩, ⟨m2, hm2, hid2⟩⟩ := h e hmem
  refine ⟨⟨m1, ?_, hid1⟩, ⟨m2, ?_, hid2⟩⟩
  · simp only [deleteNode, List.mem_filter, decide_eq_true_eq]
    exact ⟨hm1, fun hq => hsrc (hid1 ▸ hq)⟩
  · simp only [deleteNode, List.mem_filter, decide_eq_true_eq]
    exact ⟨hm2, fun hq => htgt (hid2 ▸ hq)⟩

/-! ### Claim theorems -/

/-- Claim C1: starting from any state in which every edge's source and
target are identifiers of present nodes, any sequence of `addNode` /
`deleteNode` calls leaves every remaining edge referencing two node
identifiers present in the node collection. -/
theorem run_preserves_referential_integrity (cw ch : ℚ) (steps : List Step) (s : State)
    (h : EdgesConsistent s) : EdgesConsistent (run cw ch steps s) := by
  induction steps generalizing s with
  | nil => exact h
  | cons st sts ih =>
      cases st with
      | add node => exact ih _ (addNode_getD_edgesConsistent cw ch node s h)
      | del node => exact ih _ (deleteNode_edgesConsistent node s h)

/-- Witness for C1: a concrete consistent state stays consistent through a
concrete add/add/delete sequence. -/
theorem run_preserves_referential_integrity_witness :
    EdgesConsistent
      (run 800 600 [Step.add (some nodeB), Step.add none, Step.del nodeOne] stateOneLoop) :=
  run_preserves_referential_integrity 800 600
    [Step.add (some nodeB), Step.add none, Step.del nodeOne] stateOneLoop (by decide)

/-- Claim C2: with an edit buffer in flight whose identifier some node
carries, `saveEditedNode` overwrites the first node at the matching
identifier position with the buffer, replaces every edge by its copy
keeping only identifier, source and target (clearing all extra metadata),
closes the dialog, and clears the buffer. -/
theorem saveEditedNode_commits_buffer (s : State) (info : Node)
    (h1 : s.nodeInfo = some info) (h2 : ∃ m ∈ s.nodes, m.id = info.id) :
    ∃ i : Nat, ∃ hi : i < s.nodes.length,
      (s.nodes.get ⟨i, hi⟩).id = info.id ∧
      (∀ j, j < i → ∀ hj : j < s.nodes.length, (s.nodes.get ⟨j, hj⟩).id ≠ info.id) ∧
      saveEditedNode s =
        { s with
            nodes := s.nodes.set i info,
            edges := s.edges.map stripEdge,
            isDialogOpen := false, nodeInfo := none } ∧
      ∀ e ∈ (saveEditedNode s).edges, e.extra = [] := by
  have h2' : ∃ m ∈ s.nodes, (fun node => decide (node.id = info.id)) m = true := by
    obtain ⟨m, hm, hid⟩ := h2
    exact ⟨m, hm, decide_eq_true hid⟩
  obtain ⟨i, heq, hi, hget, hfirst⟩ := jsFindIndex_found _ s.nodes h2'
  have hne : ¬ ((i : Int) = -1) := by omega
  have htn : ((i : Int)).toNat = i := by omega
  have hrec : saveEditedNode s =
      { s with
          nodes := s.nodes.set i info,
          edges := s.edges.map stripEdge,
          isDialogOpen := false, nodeInfo := none } := by
    unfold saveEditedNode
    rw [h1]
    simp [heq, hne, htn, closeDialog]
  refine ⟨i, hi, of_decide_eq_true hget, ?_, hrec, ?_⟩
  · intro j hj hjlen
    exact of_decide_eq_false (hfirst j hj hjlen)
  · intro e he
    rw [hrec] at he
    simp only [List.mem_map] at he
    obtain ⟨e0, _, rfl⟩ := he
    rfl

/-- Witness for C2: saving the edited copy of node `b` from a concrete
mid-edit state. -/
theorem saveEditedNode_commits_buffer_witness :
    ∃ i : Nat, ∃ hi : i < editingState.nodes.length,
      (editingState.nodes.get ⟨i, hi⟩).id = infoX.id ∧
      (∀ j, j < i → ∀ hj : j < editingState.nodes.length,
        (editingState.nodes.get ⟨j, hj⟩).id ≠ infoX.id) ∧
      saveEditedNode editingState =
        { editingState with
            nodes := editingState.nodes.set i infoX,
            edges := editingState.edges.map stripEdge,
            isDialogOpen := false, nodeInfo := none } ∧
      ∀ e ∈ (saveEditedNode editingState).edges, e.extra = [] :=
  saveEditedNode_commits_buffer editingState infoX rfl (by decide)

/-- Claim C3: `deleteNode(n)` keeps exactly the nodes whose identifier
differs from `n`'s, drops every edge touching `n`'s identifier, keeps
every edge touching it at neither end, and on the concrete scenario
(nodes `a`, `b`; edge `a → b`) deleting `a` yields nodes `[b]` and no
edges. -/
theorem deleteNode_spec (n : Node) (s : State) :
    (∀ m, m ∈ (deleteNode n s).nodes ↔ (m ∈ s.nodes ∧ m.id ≠ n.id)) ∧
    (∀ e ∈ (deleteNode n s).edges, e.source ≠ n.id ∧ e.target ≠ n.id) ∧
    (∀ e ∈ s.edges, e.source ≠ n.id → e.target ≠ n.id → e ∈ (deleteNode n s).edges) ∧
    ((deleteNode nodeA scenarioDeleteState).nodes = [nodeB] ∧
     (deleteNode nodeA scenarioDeleteState).edges = []) := by
  refine ⟨?_, ?_, ?_, by decide⟩
  · intro m
    simp [deleteNode, List.mem_filter]
  · intro e he
    simp only [deleteNode, List.mem_filter, decide_eq_true_eq] at he
    exact ⟨fun hq => he.2 (Or.inl hq), fun hq => he.2 (Or.inr hq)⟩
  · intro e he hsrc htgt
    simp only [deleteNode, List.mem_filter, decide_eq_true_eq]
    exact ⟨he, fun hq => hq.elim hsrc htgt⟩

/-- Witness for C3: deleting `a` from a three-node state keeps the edge
`b → c`. -/
theorem deleteNode_spec_witness :
    edgeBC ∈ (deleteNode nodeA threeNodeState).edges :=
  (deleteNode_spec nodeA threeNodeState).2.2.1 edgeBC (by decide) (by decide) (by decide)

/-- Claim C5: with no edit buffer in flight, `saveEditedNode` and
`updateNodeInfo` return without fault and leave the whole state unchanged;
with a buffer in flight matching no node identifier, `saveEditedNode`
likewise leaves the whole state unchanged. -/
theorem silent_noop_of_no_target (s t : State) (p : NodeProp) (v : String) (info : Node)
    (hs : s.nodeInfo = none) (ht : t.nodeInfo = some info)
    (hmatch : ∀ m ∈ t.nodes, m.id ≠ info.id) :
    saveEditedNode s = s ∧ updateNodeInfo p v s = some s ∧ saveEditedNode t = t := by
  refine ⟨?_, ?_, ?_⟩
  · unfold saveEditedNode
    rw [hs]
  · unfold updateNodeInfo
    rw [hs]
  · have hneg : jsFindIndex (fun node => decide (node.id = info.id)) t.nodes = -1 :=
      jsFindIndex_eq_neg_one _ _ (fun m hm => decide_eq_false (hmatch m hm))
    unfold saveEditedNode
    rw [ht]
    simp [hneg]

/-- Witness for C5: the no-buffer state and the no-match mid-edit state
both pass through unchanged. -/
theorem silent_noop_of_no_target_witness :
    saveEditedNode scenarioDeleteState = scenarioDeleteState ∧
    updateNodeInfo NodeProp.label editValue scenarioDeleteState = some scenarioDeleteState ∧
    saveEditedNode inFlightState = inFlightState :=
  silent_noop_of_no_target scenarioDeleteState inFlightState NodeProp.label editValue
    bufferNoMatch rfl rfl (by decide)

/-- Counterexample to C4 as stated: with a last node whose identifier is
the string "5", `createNewNode` produces the identifier "51" (JavaScript
string concatenation), not the "6" (or 6) that coercion to a number, an
increment, and coercion back would give. -/
theorem createNewNode_counterexample :
    (createNewNode 800 600 [nodeStrFive]).map Node.id = some (NodeId.str ("51")) ∧
    specCoercedIncrement (NodeId.str ("5")) = some (NodeId.str ("6")) ∧
    NodeId.str ("51") ≠ NodeId.str ("6") ∧
    NodeId.str ("51") ≠ NodeId.num 6 := by
  refine ⟨by decide, by decide, by decide, by decide⟩

/-- Claim C4 (amended): on a node collection with a last node,
`createNewNode` returns a node at the canvas center whose label and name
are "new node " followed by the count of nodes whose label contains the
marker "new node", whose variant tag is "draggable", and whose identifier
is the last node's identifier under JavaScript `+ 1`: numeric identifiers
increment, string identifiers get "1" appended by string concatenation. -/
theorem createNewNode_amended (cw ch : ℚ) (nodes : List Node) (last : Node)
    (hlast : nodes.getLast? = some last) :
    ∃ nn, createNewNode cw ch nodes = some nn ∧
      nn.position.x = cw / 2 ∧ nn.position.y = ch / 2 ∧
      nn.data = some { label := newNodeLabelBase ++ toString (nodes.filter hasNewNodeLabel).length,
                       name := newNodeLabelBase ++ toString (nodes.filter hasNewNodeLabel).length } ∧
      nn.type = some draggableTag ∧
      nn.id = jsAddOne last.id := by
  unfold createNewNode
  rw [hlast]
  exact ⟨_, rfl, rfl, rfl, rfl, rfl, rfl⟩

/-- Witness for C4 (amended): the singleton collection holding the
string-"5" node. -/
theorem createNewNode_amended_witness :
    ∃ nn, createNewNode 800 600 [nodeStrFive] = some nn ∧
      nn.position.x = 800 / 2 ∧ nn.position.y = 600 / 2 ∧
      nn.data = some { label := newNodeLabelBase ++ toString ([nodeStrFive].filter hasNewNodeLabel).length,
                       name := newNodeLabelBase ++ toString ([nodeStrFive].filter hasNewNodeLabel).length } ∧
      nn.type = some draggableTag ∧
      nn.id = jsAddOne nodeStrFive.id :=
  createNewNode_amended 800 600 [nodeStrFive] nodeStrFive rfl

/-- Counterexample to C6 as stated: on the state with an empty node
collection, `addNode()` with no argument throws (reading `id` of
`undefined`) instead of appending a synthesized node and opening the
dialog. -/
theorem addNode_empty_counterexample :
    addNode 800 600 none emptyState = none ∧ emptyState.nodes = [] :=
  ⟨rfl, rfl⟩

/-- Claim C6 (amended): `addNode` appends the supplied node, sets the
dialog flag, and loads the edit buffer with it; with no argument it does
the same with the synthesized default whenever synthesis succeeds (which
requires a non-empty collection); from the one-node scenario state the
result has two nodes, an open dialog, and the buffer holding the newly
appended (last) node. -/
theorem addNode_amended (cw ch : ℚ) (s : State) :
    (∀ node, addNode cw ch (some node) s =
      some { s with nodes := s.nodes ++ [node], nodeInfo := some node, isDialogOpen := true }) ∧
    (∀ nn, createNewNode cw ch s.nodes = some nn →
      addNode cw ch none s =
        some { s with nodes := s.nodes ++ [nn], nodeInfo := some nn, isDialogOpen := true }) ∧
    (∃ s1, addNode 800 600 none scenarioAddState = some s1 ∧
      s1.nodes.length = 2 ∧ s1.isDialogOpen = true ∧ s1.nodeInfo = s1.nodes.getLast?) := by
  refine ⟨fun node => rfl, fun nn hnn => ?_, ?_⟩
  · simp [addNode, hnn]
  · exact ⟨_, rfl, by decide, rfl, by simp⟩

/-- Witness for C6 (amended): the synthesized node for the scenario state
is appended and buffered. -/
theorem addNode_amended_witness :
    addNode 800 600 none scenarioAddState =
      some { scenarioAddState with
               nodes := scenarioAddState.nodes ++ [synthesizedNode],
               nodeInfo := some synthesizedNode, isDialogOpen := true } :=
  (addNode_amended 800 600 scenarioAddState).2.1 synthesizedNode rfl

/-- Claim C7: `setNodePersonaFunc` replaces the node and edge collections
wholesale with the persona's, whatever the prior contents, and records the
persona type (and the persona itself). -/
theorem setNodePersonaFunc_replaces (t : String) (p : NodePersona) (s : State) :
    (setNodePersonaFunc { type := t, nodePersona := p } s).nodes = p.nodes ∧
    (setNodePersonaFunc { type := t, nodePersona := p } s).edges = p.edges ∧
    (setNodePersonaFunc { type := t, nodePersona := p } s).nodePersonaType = some t ∧
    (setNodePersonaFunc { type := t, nodePersona := p } s).nodePersona = some p :=
  ⟨rfl, rfl, rfl, rfl⟩

/-- Claim C8 (code bug): outside a provider subtree the context holds the
default installed by `createContext(null!)`, which is `null`; the hook's
guard compares against `undefined`, so it returns the unusable `null`
value to the caller instead of throwing.  The guard fires only on
`undefined`, a value the default never takes. -/
theorem useNodeFlowContext_null_default_no_throw :
    useNodeFlowContext nodeFlowContextDefault = Except.ok ContextValue.nullV ∧
    nodeFlowContextDefault = ContextValue.nullV ∧
    useNodeFlowContext ContextValue.undefinedV = Except.error providerErrorMsg :=
  ⟨rfl, rfl, rfl⟩

/-- Counterexample to C9 as stated: duplicating a node whose label is "L"
and whose name is "N" produces a clone whose name is "L duplicate" — the
name is derived from the original label, not from the original name. -/
theorem duplicateNode_counterexample :
    (duplicateNode 800 600 nodeLN emptyState).map
        (fun s1 => s1.nodeInfo.map (fun m => m.data.map NodeData.name)) =
      some (some (some ("L duplicate"))) ∧
    ("L duplicate" : String) ≠ "N duplicate" := by
  refine ⟨by decide, by decide⟩

/-- Claim C9 (amended): `duplicateNode` clones the node with identifier
the string of the current collection length and with label AND name both
the original node's label (its template-literal rendering) suffixed by
" duplicate", keeping its variant tag and position, and delegates to
`addNode`: the clone is appended, the dialog opens, and the buffer holds
the clone. -/
theorem duplicateNode_amended (cw ch : ℚ) (node : Node) (s : State) :
    ∃ dup : Node,
      duplicateNode cw ch node s =
        some { s with nodes := s.nodes ++ [dup], nodeInfo := some dup, isDialogOpen := true } ∧
      dup.id = NodeId.str (toString s.nodes.length) ∧
      dup.data = some { label := jsTemplateLabel node ++ duplicateSuffix,
                        name := jsTemplateLabel node ++ duplicateSuffix } ∧
      dup.type = node.type ∧ dup.position = node.position :=
  ⟨_, rfl, rfl, rfl, rfl, rfl⟩

/-- Claim C10: `deleteNode` removes every node whose identifier equals the
argument's (all duplicates) and preserves the relative order of the
surviving nodes and edges (both results are sublists of the originals). -/
theorem deleteNode_removes_all_matches_in_order (n : Node) (s : State) :
    List.Sublist ((deleteNode n s).nodes) s.nodes ∧
    (∀ m, m ∈ (deleteNode n s).nodes ↔ (m ∈ s.nodes ∧ m.id ≠ n.id)) ∧
    List.Sublist ((deleteNode n s).edges) s.edges := by
  refine ⟨List.filter_sublist _, ?_, List.filter_sublist _⟩
  intro m
  simp [deleteNode, List.mem_filter]

/-- Witness for C10: node `b` survives deleting `a` from a state carrying
two distinct nodes with identifier "a". -/
theorem deleteNode_removes_all_matches_in_order_witness :
    nodeB ∈ (deleteNode nodeA dupIdState).nodes :=
  ((deleteNode_removes_all_matches_in_order nodeA dupIdState).2.1 nodeB).mpr
    ⟨by decide, by decide⟩

end NodeFlow
